import Mathlib

/-!
Verification of the DeWill ZerePy cron-agent orchestration engine.

This file gives a shallow embedding of the parts of the repository that the
specification talks about:

* `DeWill` — the main agent loop `ZerePyAgent.loop` (src/agent.py, lines
  111-344): state replenishment, weighted task selection, cooldown
  enforcement, the per-branch behaviour of the built-in tasks, the per
  iteration sleep policy, and the iteration-boundary exception handler.
* `DeWill.Dispatcher` — `ConnectionManager.find_and_perform_action`
  (src/connection_manager.py, lines 77-129).
* `DeWill.Sonic` — `SonicConnection.perform_action`
  (src/connections/sonic_connection.py, lines 366-383) together with the
  `Action.validate_params` contract it relies on.

External providers (Twitter, Echochambers, the LLM, the Sonic RPC node) are
out of scope for the spec; their responses are supplied as explicit inputs
(`Env`, the `perform` field of a `Connection`, the `methods` field of a
`SonicConnection`), so every definition here is executable.
-/

namespace DeWill

/-- A Python exception value set.  Only the class of the exception matters
for the control flow that is modelled here (`except KeyError`,
`except ValueError`, `except Exception`). -/
inductive PyErr where
  | keyError (msg : String)
  | valueError (msg : String)
  | typeError (msg : String)
  | connectionError (msg : String)
  | other (msg : String)
deriving DecidableEq, Repr

/-- The Python values that flow through the dispatcher: strings and ints
cover every argument the dispatcher builds. -/
inductive PyVal where
  | vStr (s : String)
  | vInt (n : Int)
deriving DecidableEq, Repr

/-- Python truthiness of an optional string: `None` and `""` are falsy. -/
def optTruthy : Option String → Bool
  | none => false
  | some s => s != ""

/-- A schedulable task from the agent profile: `{"name": ..., "weight": ...}`
(src/agent.py line 56-57). -/
structure Task where
  name : String
  weight : Nat
deriving DecidableEq, Repr

/-- A timeline tweet as the loop consumes it.  `id = ""` models a tweet whose
`get('id')` is missing or empty (both are falsy in Python, line 181-183).
`authorUsername` models `tweet.get('author_username', '').lower()`
(line 186), already lower-cased. -/
structure Tweet where
  id : String
  authorUsername : String
deriving DecidableEq, Repr

/-- An Echochambers room-history message (lines 292-296): `id = ""`,
`senderUsername = ""`, `content = ""` model missing/empty fields, all of
which the loop skips identically (line 298-300). -/
structure EchoMessage where
  id : String
  senderUsername : String
  content : String
deriving DecidableEq, Repr

/-- One dispatched provider call, identified by connection and action name,
used as an audit record of which external calls an iteration performed. -/
structure Call where
  connection : String
  action : String
deriving DecidableEq, Repr

def callReadTimeline : Call := ⟨"twitter", "read-timeline"⟩

def callPostTweet : Call := ⟨"twitter", "post-tweet"⟩

def callReplyTweet : Call := ⟨"twitter", "reply-to-tweet"⟩

def callLikeTweet : Call := ⟨"twitter", "like-tweet"⟩

def callGetReplies : Call := ⟨"twitter", "get-tweet-replies"⟩

def callGenerateText : Call := ⟨"llm", "generate-text"⟩

def callRoomInfo : Call := ⟨"echochambers", "get-room-info"⟩

def callRoomHistory : Call := ⟨"echochambers", "get-room-history"⟩

def callEchoSend : Call := ⟨"echochambers", "send-message"⟩

/-- The fields of `ZerePyAgent` that the loop reads (src/agent.py
`__init__`, lines 16-64, and `_setup_llm_provider`, lines 66-78). -/
structure AgentCfg where
  tasks : List Task
  loopDelay : Nat
  tweetInterval : Int
  ownTweetRepliesCount : Nat
  username : String
  echoMessageInterval : Int
  echoSenderUsername : String

/-- The `self.state` keyed Agent State store.  `timelineTweets` models the
`"timeline_tweets"` key: `none` = key absent, `some none` = key present with
value `None`, `some (some l)` = key present with a list.
`echoLastMessage` models `"echochambers_last_message"` (`none` = key absent,
initialised to `0` inside the Echochambers branch, lines 248-249).
`echoReplied` models the `"echochambers_replied_messages"` set (lines
250-251), as a duplicate-free list. -/
structure AgentState where
  timelineTweets : Option (Option (List Tweet))
  echoLastMessage : Option Int
  echoReplied : List String
deriving DecidableEq, Repr

/-- The loop-local mutable data: the agent state plus the `last_tweet_time`
local variable (line 126). -/
structure LoopState where
  st : AgentState
  lastTweetTime : Int
deriving DecidableEq, Repr

/-- The external world as one iteration observes it.

Modelled from the spec: the loop dispatches every provider call through
`ConnectionManager.perform_action`, a method that is not present in
src/connection_manager.py (only `find_and_perform_action` is, and it catches
every exception and returns `None`).  Following §4.3/§7 of the spec and the
semantics of `find_and_perform_action`, each dispatched call is modelled as
returning the provider's result, or `None` on any failure, without raising;
so each field below is the `Option`-valued response of one call site.
`signal` models a `KeyboardInterrupt` delivered at the iteration boundary,
the only place the outer `except KeyboardInterrupt` (line 342) is reached
from in this model. -/
structure Env where
  now : Int
  rand : Nat
  readTimeline : Option (List Tweet)
  llmTweet : Option String
  tweetReplies : Option (List Tweet)
  llmReplyTweet : Option String
  roomInfo : Option Unit
  history : Option (List EchoMessage)
  llmEchoPost : Option String
  llmEchoReply : String → Option String
  signal : Bool

/-- Sum of the configured task weights, `sum(self.task_weights)`. -/
def totalWeight (tasks : List Task) : Nat := (tasks.map Task.weight).sum

/-- Walk the cumulative weight ranges: the draw `r` selects the first task
whose range contains it.  A zero-weight task has an empty range. -/
def pickWeighted : List Task → Nat → Option Task
  | [], _ => none
  | t :: ts, r => if r < t.weight then some t else pickWeighted ts (r - t.weight)

/-- Embedding of `random.choices(self.tasks, weights=self.task_weights, k=1)[0]`
(src/agent.py line 145).  CPython raises `ValueError` when the total of the
weights is not positive; otherwise the draw lands in one task's cumulative
range.  The randomness is supplied as the draw `r`. -/
def randomChoices (tasks : List Task) (r : Nat) : Except PyErr Task :=
  if totalWeight tasks = 0 then
    .error (.valueError "Total of weights must be greater than zero")
  else
    match pickWeighted tasks (r % totalWeight tasks) with
    | some t => .ok t
    | none => .error (.other "index out of range")

/-- Python `str.startswith(pre)`, implemented over the character sequence so
that it evaluates by kernel reduction. -/
def pyStartsWith (s pre : String) : Bool := pre.data.isPrefixOf s.data

/-- Embedding of `any(task["name"].startswith("tweet") for task in self.tasks)`
(src/agent.py line 135), the loop's guard for refilling the timeline. -/
def tasksDependOnTimeline (tasks : List Task) : Bool :=
  tasks.any (fun t => pyStartsWith t.name "tweet")

/-- Embedding of `"timeline_tweets" not in self.state or self.state["timeline_tweets"] is
None or len(self.state["timeline_tweets"]) == 0` (src/agent.py line 134). -/
def timelineNeedsRefill : Option (Option (List Tweet)) → Bool
  | none => true
  | some none => true
  | some (some l) => l.isEmpty

/-- Outcome of the `reply-echochambers` message scan (src/agent.py lines
292-329): the updated replied set, the provider calls made, which message id
was replied to (if any), the `success` flag, and a raised exception if the
scan aborted (subscripting a `None` room_info). -/
structure ScanResult where
  replied : List String
  calls : List Call
  chosen : Option String
  success : Bool
  err : Option PyErr
deriving Repr

/-- The `for message in history` loop of the `reply-echochambers` branch
(src/agent.py lines 292-329): skip messages with missing fields, skip own
messages and already-replied ids, otherwise build the prompt (which
subscripts `room_info`, raising `TypeError` when the room-info dispatch
returned `None`), ask the LLM, and on a truthy reply send it, record the id,
and `break`; on a falsy reply keep scanning. -/
def scanEcho (cfg : AgentCfg) (env : Env) : List EchoMessage → List String → ScanResult
  | [], replied => ⟨replied, [], none, false, none⟩
  | m :: ms, replied =>
    if m.id = "" ∨ m.senderUsername = "" ∨ m.content = "" then
      scanEcho cfg env ms replied
    else if m.senderUsername = cfg.echoSenderUsername ∨ m.id ∈ replied then
      scanEcho cfg env ms replied
    else if env.roomInfo.isNone then
      ⟨replied, [], none, false, some (.typeError "NoneType is not subscriptable")⟩
    else if optTruthy (env.llmEchoReply m.id) then
      ⟨replied.insert m.id, [callGenerateText, callEchoSend], some m.id, true, none⟩
    else
      let r := scanEcho cfg env ms replied
      ⟨r.replied, callGenerateText :: r.calls, r.chosen, r.success, r.err⟩

/-- Result of running one iteration body (the inner `try` block, src/agent.py
lines 131-335): fall-through to the final sleep with a success flag
(`done`), a `continue` statement that jumps straight to the next iteration
(`cont`), or a raised exception (`err`), each carrying the state at that
point and the provider calls made so far. -/
inductive BodyResult where
  | done (s : LoopState) (calls : List Call) (success : Bool)
  | cont (s : LoopState) (calls : List Call)
  | err (s : LoopState) (calls : List Call) (e : PyErr)
deriving Repr

/-- The state carried by a body result. -/
def BodyResult.state : BodyResult → LoopState
  | .done s _ _ => s
  | .cont s _ => s
  | .err s _ _ => s

/-- The audit list of provider calls carried by a body result. -/
def BodyResult.calls : BodyResult → List Call
  | .done _ calls _ => calls
  | .cont _ calls => calls
  | .err _ calls _ => calls

/-- Prefix an audit list of calls onto a body result. -/
def prependCalls (cs : List Call) : BodyResult → BodyResult
  | .done s calls succ => .done s (cs ++ calls) succ
  | .cont s calls => .cont s (cs ++ calls)
  | .err s calls e => .err s (cs ++ calls) e

/-- The `PERFORM ACTION` branches of the loop (src/agent.py lines 149-331),
run after replenish and selection, on the selected action's name. -/
def branchRun (cfg : AgentCfg) (env : Env) (actionName : String) (s1 : LoopState) :
    BodyResult :=
  if actionName = "post-tweet" then
    -- lines 149-175
    if env.now - s1.lastTweetTime ≥ cfg.tweetInterval then
      if optTruthy env.llmTweet then
        .done { s1 with lastTweetTime := env.now } [callGenerateText, callPostTweet] true
      else
        .done s1 [callGenerateText] false
    else
      .cont s1 []
  else if actionName = "reply-to-tweet" then
    -- lines 177-216
    match s1.st.timelineTweets with
    | some (some (tw :: rest)) =>
      let s2 : LoopState := { s1 with st.timelineTweets := some (some rest) }
      if tw.id = "" then .cont s2 []
      else if tw.authorUsername = cfg.username then
        match env.tweetReplies with
        | some (r :: rs) =>
          let extended := rest ++ (r :: rs).take cfg.ownTweetRepliesCount
          .cont { s2 with st.timelineTweets := some (some extended) } [callGetReplies]
        | _ => .cont s2 [callGetReplies]
      else if optTruthy env.llmReplyTweet then
        .done s2 [callGenerateText, callReplyTweet] true
      else
        .done s2 [callGenerateText] false
    | _ => .done s1 [] false
  else if actionName = "like-tweet" then
    -- lines 218-234
    match s1.st.timelineTweets with
    | some (some (tw :: rest)) =>
      let s2 : LoopState := { s1 with st.timelineTweets := some (some rest) }
      if tw.id = "" then .cont s2 []
      else .done s2 [callLikeTweet] true
    | _ => .done s1 [] false
  else if pyStartsWith actionName "post-echochambers" ∨
      pyStartsWith actionName "reply-echochambers" then
    -- lines 237-331
    let echoLast := s1.st.echoLastMessage.getD 0
    let s2 : LoopState := { s1 with st.echoLastMessage := some echoLast }
    if actionName = "post-echochambers" then
      if env.now - echoLast > cfg.echoMessageInterval then
        if env.roomInfo.isNone then
          .err s2 [callRoomInfo] (.typeError "NoneType is not subscriptable")
        else if optTruthy env.llmEchoPost then
          .done { s2 with st.echoLastMessage := some env.now }
            [callRoomInfo, callGenerateText, callEchoSend] true
        else
          .done s2 [callRoomInfo, callGenerateText] false
      else
        .done s2 [callRoomInfo] false
    else if actionName = "reply-echochambers" then
      match env.history with
      | some (h :: hs) =>
        let r := scanEcho cfg env (h :: hs) s2.st.echoReplied
        let s3 : LoopState := { s2 with st.echoReplied := r.replied }
        match r.err with
        | some e => .err s3 ([callRoomInfo, callRoomHistory] ++ r.calls) e
        | none => .done s3 ([callRoomInfo, callRoomHistory] ++ r.calls) r.success
      | _ => .done s2 [callRoomInfo, callRoomHistory] false
    else
      .done s2 [callRoomInfo] false
  else
    .done s1 [] false

/-- The replenish guard of lines 134-135: the timeline key is
absent/None/empty and some task name starts with "tweet". -/
def refillFlag (cfg : AgentCfg) (s0 : LoopState) : Bool :=
  timelineNeedsRefill s0.st.timelineTweets && tasksDependOnTimeline cfg.tasks

/-- The state after the `REPLENISH INPUTS` step (lines 134-141): when the
guard holds, `state["timeline_tweets"]` is assigned the dispatch result
(`None` on a failed call). -/
def afterRefill (cfg : AgentCfg) (env : Env) (s0 : LoopState) : LoopState :=
  if refillFlag cfg s0 then { s0 with st.timelineTweets := some env.readTimeline } else s0

/-- The provider calls made by the replenish step. -/
def refillCalls (cfg : AgentCfg) (s0 : LoopState) : List Call :=
  if refillFlag cfg s0 then [callReadTimeline] else []

/-- One run of the iteration body (the inner `try` block, src/agent.py lines
131-335): replenish the timeline when its guard holds (lines 134-141),
select a task by weighted draw (line 145), then run the selected branch. -/
def bodyRun (cfg : AgentCfg) (env : Env) (s0 : LoopState) : BodyResult :=
  match randomChoices cfg.tasks env.rand with
  | .error e => .err (afterRefill cfg env s0) (refillCalls cfg s0) e
  | .ok action =>
    prependCalls (refillCalls cfg s0) (branchRun cfg env action.name (afterRefill cfg env s0))

/-- Observable outcome of one full iteration: resulting state, provider
calls, the sleep performed at the end (`none` when a `continue` skipped the
sleep), whether the body raised (and was caught at line 337), whether it
was `continue`-skipped, and its `success` flag. -/
structure IterResult where
  state : LoopState
  calls : List Call
  sleep : Option Nat
  errored : Bool
  skipped : Bool
  success : Bool
deriving DecidableEq, Repr

/-- One iteration of the `while True` loop including its boundary handling
(src/agent.py lines 129-340): a fall-through sleeps `loop_delay` on success
and 60 seconds otherwise (line 335); a `continue` performs no sleep; an
exception is caught by the `except Exception` handler, which sleeps
`loop_delay` (line 340). -/
def iterate (cfg : AgentCfg) (env : Env) (s : LoopState) : IterResult :=
  match bodyRun cfg env s with
  | .done s' calls succ =>
    ⟨s', calls, some (if succ then cfg.loopDelay else 60), false, false, succ⟩
  | .cont s' calls => ⟨s', calls, none, false, true, false⟩
  | .err s' calls _ => ⟨s', calls, some cfg.loopDelay, true, false, false⟩

/-- The `while True` loop under the outer `except KeyboardInterrupt`
(src/agent.py lines 128-344), driven by a finite trace of environments: it
stops at the first environment that delivers the cancellation signal and
otherwise runs one iteration per environment.  Returns the number of
completed iterations and the final state. -/
def loopRun (cfg : AgentCfg) : LoopState → List Env → Nat × LoopState
  | s, [] => (0, s)
  | s, e :: es =>
    if e.signal then (0, s)
    else
      let r := iterate cfg e s
      let p := loopRun cfg r.state es
      (p.1 + 1, p.2)

namespace Dispatcher

/-- A connection as `ConnectionManager.find_and_perform_action` sees it:
its configured flag, the keys of its `actions` dict, and the behaviour of
its `perform_action` method, which may return a value, return `None`, or
raise (src/connections/twitter_connection.py line 31-35 and peers).  The
provider behaviour is supplied as the `perform` field. -/
structure Connection where
  isConfigured : Bool
  actions : List String
  perform : String → List (String × PyVal) → Except PyErr (Option PyVal)

/-- The registry `self.connections` (src/connection_manager.py lines 7-11),
as an association list. -/
structure ConnectionManager where
  connections : List (String × Connection)

/-- The `self.connections[connection_string]` lookup (raises `KeyError` when the
name is absent, modelled by the `none` result at the call site). -/
def lookupConn (m : ConnectionManager) (name : String) : Option Connection :=
  (m.connections.find? (fun p => p.1 = name)).map Prod.snd

/-- Embedding of `int(args[1])`: `none` models the `ValueError` raised on a non-numeric
string, which line 98-102 catches inline. -/
def parseIntPy (s : String) : Option Int := s.toInt?

/-- The `try` block of `find_and_perform_action` (src/connection_manager.py
lines 78-119): resolve the connection (`KeyError` when unknown), resolve the
action (`raise KeyError` when unknown), extract per-action arguments from a
CLI `input_list` when one is given (printing and returning `None` on bad
arity or a non-numeric count), then call `connection.perform_action`. -/
def fapBody (m : ConnectionManager) (actionString connectionString : String)
    (inputList : Option (List String)) (kwargs : List (String × PyVal)) :
    Except PyErr (Option PyVal) :=
  match lookupConn m connectionString with
  | none => .error (.keyError connectionString)
  | some conn =>
    if actionString ∈ conn.actions then
      match inputList with
      | some il =>
        let args := il.drop 3
        if 0 < args.length then
          if actionString = "get-latest-tweets" then
            if 2 ≤ args.length then
              match parseIntPy (args.getD 1 "") with
              | none => .ok none
              | some n =>
                conn.perform actionString
                  (kwargs ++ [("username", .vStr (args.getD 0 "")), ("count", .vInt n)])
            else .ok none
          else if actionString = "post-tweet" then
            conn.perform actionString
              (kwargs ++ [("message", .vStr (String.intercalate " " args))])
          else if actionString = "like-tweet" then
            if args.length = 1 then
              conn.perform actionString (kwargs ++ [("tweet_id", .vStr (args.getD 0 ""))])
            else .ok none
          else conn.perform actionString kwargs
        else conn.perform actionString kwargs
      | none => conn.perform actionString kwargs
    else .error (.keyError ("Unknown action: " ++ actionString))

/-- Embedding of `ConnectionManager.find_and_perform_action` (src/connection_manager.py
lines 77-129): the `try` body with its `except KeyError`, `except
ValueError` and `except Exception` handlers, each of which prints and
returns `None`. -/
def find_and_perform_action (m : ConnectionManager) (actionString connectionString : String)
    (inputList : Option (List String)) (kwargs : List (String × PyVal)) : Option PyVal :=
  match fapBody m actionString connectionString inputList kwargs with
  | .ok v => v
  | .error (.keyError _) => none
  | .error (.valueError _) => none
  | .error (.typeError _) => none
  | .error (.connectionError _) => none
  | .error (.other _) => none

end Dispatcher

namespace Sonic

/-- The declared type of an action parameter. -/
inductive PyType where
  | tStr
  | tInt
deriving DecidableEq, Repr

/-- An `isinstance`-style conformance test of a supplied value to a declared type. -/
def matchesType : PyVal → PyType → Bool
  | .vStr _, .tStr => true
  | .vInt _, .tInt => true
  | _, _ => false

/-- An `ActionParameter(name, required, type, description)` as imported by
src/connections/sonic_connection.py from `base_connection`. -/
structure ActionParameter where
  name : String
  required : Bool
  ty : PyType
deriving DecidableEq, Repr

/-- A validation error returned by `Action.validate_params`. -/
inductive ValError where
  | missing (name : String)
  | typeMismatch (name : String) (expected : PyType)
deriving DecidableEq, Repr

/-- The `kwargs.get(name)` lookup on the argument map. -/
def lookupArg (args : List (String × PyVal)) (n : String) : Option PyVal :=
  (args.find? (fun p => p.1 = n)).map Prod.snd

/-- Modelled from the spec: `Action.validate_params` is imported by
src/connections/sonic_connection.py from `src.connections.base_connection`,
but the `Action`/`ActionParameter` classes are absent from the
base_connection.py present in src/.  Following §4.1 of the spec: for every
required parameter not present in the arguments emit a "missing parameter"
error naming it; for every supplied parameter whose value does not conform
to its declared type emit a "type mismatch" error naming it; ignore unknown
keys; return the empty list on success. -/
def validate_params (ps : List ActionParameter) (args : List (String × PyVal)) :
    List ValError :=
  ps.foldr
    (fun p acc =>
      match lookupArg args p.name with
      | none => if p.required then .missing p.name :: acc else acc
      | some v => if matchesType v p.ty then acc else .typeMismatch p.name p.ty :: acc)
    []

/-- The parts of `SonicConnection` that `perform_action` reads: the
configured flag, the registered actions with their parameter lists, and the
underlying bound methods (`getattr(self, method_name)`), supplied as the
`methods` field since their bodies make live RPC calls. -/
structure SonicConnection where
  configured : Bool
  actions : List (String × List ActionParameter)
  methods : String → List (String × PyVal) → Except PyErr PyVal

/-- The `self.actions.get(action_name)`-style lookup of a registered action. -/
def lookupAction (sc : SonicConnection) (n : String) : Option (List ActionParameter) :=
  (sc.actions.find? (fun p => p.1 = n)).map Prod.snd

/-- Embedding of `SonicConnection.perform_action` (src/connections/sonic_connection.py
lines 366-383): raise `KeyError` for an unregistered action, raise
`SonicConnectionError` when not configured, raise `ValueError` when
`validate_params` returns a non-empty error list, and only then call the
bound method. -/
def sonic_perform_action (sc : SonicConnection) (actionName : String)
    (kwargs : List (String × PyVal)) : Except PyErr PyVal :=
  match lookupAction sc actionName with
  | none => .error (.keyError ("Unknown action: " ++ actionName))
  | some ps =>
    if !sc.configured then
      .error (.connectionError "Sonic is not properly configured")
    else if validate_params ps kwargs = [] then
      sc.methods actionName kwargs
    else
      .error (.valueError "Invalid parameters")

end Sonic

/-! Concrete instances used by the witnesses and counterexamples below. -/

/-- Concrete environment: every provider call fails (returns `None`), no
cancellation signal. -/
def envBase : Env :=
  { now := 100, rand := 0, readTimeline := none, llmTweet := none,
    tweetReplies := none, llmReplyTweet := none, roomInfo := none,
    history := none, llmEchoPost := none, llmEchoReply := fun _ => none,
    signal := false }

/-- Concrete agent configuration with a single weight-1 `post-tweet` task. -/
def cfgPost : AgentCfg :=
  { tasks := [⟨"post-tweet", 1⟩], loopDelay := 5, tweetInterval := 10,
    ownTweetRepliesCount := 2, username := "me", echoMessageInterval := 60,
    echoSenderUsername := "bot" }

/-- Concrete loop state with a one-entry timeline and `last_tweet_time = 0`. -/
def statePost : LoopState :=
  { st := { timelineTweets := some (some [⟨"t1", "alice"⟩]),
            echoLastMessage := none, echoReplied := [] },
    lastTweetTime := 0 }

/-- Refinement-side definition, following the spec's words (§4.4 step 1:
"a provider-backed cache ... is empty and at least one configured Task
depends on it"): the tasks that depend on the `timeline_tweets` cache are
exactly the ones whose branches consume it by popping from it, namely
`reply-to-tweet` (src/agent.py line 180) and `like-tweet` (line 221).  This
definition is compared against the source's replenish guard
`tasksDependOnTimeline` (name starts with "tweet", line 135). -/
def specTaskDependsOnTimeline (t : Task) : Bool :=
  t.name = "reply-to-tweet" || t.name = "like-tweet"

/-- Concrete environment delivering an empty-string LLM generation. -/
def envLLMEmpty : Env := { envBase with llmTweet := some "" }

/-- Concrete environment delivering a non-empty LLM generation. -/
def envLLMText : Env := { envBase with llmTweet := some "hello" }

/-- Concrete environment whose clock is still inside the tweet cooldown. -/
def envEarly : Env := { envBase with now := 3 }

/-- Concrete environment with room info available and an LLM that answers
every reply prompt. -/
def envEcho : Env :=
  { envBase with roomInfo := some (), llmEchoReply := fun _ => some "a reply" }

/-- Concrete agent configuration whose only task is `like-tweet`. -/
def cfgLike : AgentCfg := { cfgPost with tasks := [⟨"like-tweet", 1⟩] }

/-- Concrete agent configuration with a zero-weight task whose name starts
with "tweet" (so the replenish guard fires) next to `post-tweet`. -/
def cfgDep : AgentCfg := { cfgPost with tasks := [⟨"tweetseed", 0⟩, ⟨"post-tweet", 1⟩] }

/-- Concrete loop state whose `timeline_tweets` key is absent. -/
def stateEmpty : LoopState :=
  { st := { timelineTweets := none, echoLastMessage := none, echoReplied := [] },
    lastTweetTime := 0 }

/-- Concrete connection whose provider call raises. -/
def connBoom : Dispatcher.Connection :=
  { isConfigured := true, actions := ["post-tweet"],
    perform := fun _ _ => .error (.other "network down") }

/-- Concrete registry holding `connBoom` under the name "twitter". -/
def mgrBoom : Dispatcher.ConnectionManager := { connections := [("twitter", connBoom)] }

/-- Concrete connection that is not configured but still answers its
`post-tweet` action. -/
def connUnconfigured : Dispatcher.Connection :=
  { isConfigured := false, actions := ["post-tweet"],
    perform := fun _ _ => .ok (some (.vStr "posted")) }

/-- Concrete registry holding `connUnconfigured` under the name "twitter". -/
def mgrUnconfigured : Dispatcher.ConnectionManager :=
  { connections := [("twitter", connUnconfigured)] }

/-- Concrete parameter list of a transfer-style action: two required
parameters. -/
def psTransfer : List Sonic.ActionParameter :=
  [⟨"to_address", true, .tStr⟩, ⟨"amount", true, .tInt⟩]

/-- Concrete argument map supplying a strict subset of `psTransfer`. -/
def argsPartial : List (String × PyVal) := [("to_address", .vStr "0xabc")]

/-- Concrete configured Sonic connection registering `psTransfer` under
"transfer". -/
def scTransfer : Sonic.SonicConnection :=
  { configured := true, actions := [("transfer", psTransfer)],
    methods := fun _ _ => .ok (.vStr "0xhash") }

/-! Helper lemmas. -/

theorem pickWeighted_pos {ts : List Task} {r : Nat} {t : Task}
    (h : pickWeighted ts r = some t) : 0 < t.weight := by
  induction ts generalizing r with
  | nil => simp [pickWeighted] at h
  | cons a ts ih =>
    unfold pickWeighted at h
    split at h
    · rename_i hlt
      cases h
      exact Nat.lt_of_le_of_lt (Nat.zero_le r) hlt
    · exact ih h

/-- Any task that the weighted draw returns has a positive weight: a
zero-weight task is never selected. -/
theorem randomChoices_pos {ts : List Task} {r : Nat} {t : Task}
    (h : randomChoices ts r = .ok t) : 0 < t.weight := by
  unfold randomChoices at h
  split at h
  · exact absurd h (by simp)
  · revert h
    cases hpick : pickWeighted ts (r % totalWeight ts) with
    | none => intro h; exact absurd h (by simp)
    | some t' =>
      intro h
      cases h
      exact pickWeighted_pos hpick

/-- When every configured weight is zero the draw raises `ValueError`. -/
theorem randomChoices_all_zero {ts : List Task} (h : ∀ t ∈ ts, t.weight = 0) (r : Nat) :
    randomChoices ts r =
      .error (.valueError "Total of weights must be greater than zero") := by
  have htot : totalWeight ts = 0 := by
    unfold totalWeight
    apply List.sum_eq_zero
    intro x hx
    rcases List.mem_map.mp hx with ⟨t, ht, rfl⟩
    exact h t ht
  simp [randomChoices, htot]

theorem loopRun_cons_signal {cfg : AgentCfg} {s : LoopState} {e : Env} {es : List Env}
    (hs : e.signal = true) : loopRun cfg s (e :: es) = (0, s) := by
  simp [loopRun, hs]

theorem loopRun_cons_go {cfg : AgentCfg} {s : LoopState} {e : Env} {es : List Env}
    (hs : e.signal = false) :
    loopRun cfg s (e :: es) =
      ((loopRun cfg (iterate cfg e s).state es).1 + 1,
       (loopRun cfg (iterate cfg e s).state es).2) := by
  simp [loopRun, hs]

/-- The loop completes one iteration per supplied environment exactly when
no environment delivers the cancellation signal. -/
theorem loopRun_fst_eq_length_iff (cfg : AgentCfg) (s : LoopState) (envs : List Env) :
    (loopRun cfg s envs).1 = envs.length ↔ ∀ e ∈ envs, e.signal = false := by
  induction envs generalizing s with
  | nil => simp [loopRun]
  | cons e es ih =>
    rw [List.forall_mem_cons]
    cases hs : e.signal with
    | true =>
      rw [loopRun_cons_signal hs]
      constructor
      · intro h
        exact absurd h (by simp)
      · rintro ⟨h1, -⟩
        cases h1
    | false =>
      rw [loopRun_cons_go hs]
      constructor
      · intro h
        refine ⟨rfl, (ih ((iterate cfg e s).state)).mp ?_⟩
        simpa using h
      · rintro ⟨-, h2⟩
        have heq := (ih ((iterate cfg e s).state)).mpr h2
        simp [heq]

theorem afterRefill_lastTweetTime (cfg : AgentCfg) (env : Env) (s : LoopState) :
    (afterRefill cfg env s).lastTweetTime = s.lastTweetTime := by
  unfold afterRefill
  split <;> rfl

theorem afterRefill_echoReplied (cfg : AgentCfg) (env : Env) (s : LoopState) :
    (afterRefill cfg env s).st.echoReplied = s.st.echoReplied := by
  unfold afterRefill
  split <;> rfl

theorem afterRefill_of_flag {cfg : AgentCfg} (env : Env) {s : LoopState}
    (h : refillFlag cfg s = true) :
    afterRefill cfg env s = { s with st.timelineTweets := some env.readTimeline } := by
  unfold afterRefill
  rw [if_pos h]

theorem mem_refillCalls {cfg : AgentCfg} {s : LoopState} {c : Call}
    (hc : c ∈ refillCalls cfg s) : c = callReadTimeline := by
  revert hc
  unfold refillCalls
  split <;> simp

theorem refillCalls_count (cfg : AgentCfg) (s : LoopState) :
    (refillCalls cfg s).count callReadTimeline = if refillFlag cfg s then 1 else 0 := by
  by_cases h : refillFlag cfg s <;> simp [refillCalls, h]

theorem prependCalls_state (cs : List Call) (r : BodyResult) :
    (prependCalls cs r).state = r.state := by
  cases r <;> rfl

theorem prependCalls_calls (cs : List Call) (r : BodyResult) :
    (prependCalls cs r).calls = cs ++ r.calls := by
  cases r <;> rfl

theorem bodyRun_sel {cfg : AgentCfg} {env : Env} (s : LoopState) {t : Task}
    (hsel : randomChoices cfg.tasks env.rand = .ok t) :
    bodyRun cfg env s =
      prependCalls (refillCalls cfg s) (branchRun cfg env t.name (afterRefill cfg env s)) := by
  unfold bodyRun
  rw [hsel]

theorem iterate_state_bodyRun (cfg : AgentCfg) (env : Env) (s : LoopState) :
    (iterate cfg env s).state = (bodyRun cfg env s).state := by
  unfold iterate
  cases bodyRun cfg env s <;> rfl

theorem iterate_calls_bodyRun (cfg : AgentCfg) (env : Env) (s : LoopState) :
    (iterate cfg env s).calls = (bodyRun cfg env s).calls := by
  unfold iterate
  cases bodyRun cfg env s <;> rfl

theorem scanEcho_replied_superset (cfg : AgentCfg) (env : Env) :
    ∀ (hist : List EchoMessage) (replied : List String),
      replied ⊆ (scanEcho cfg env hist replied).replied := by
  intro hist
  induction hist with
  | nil => intro replied; exact fun x hx => hx
  | cons m ms ih =>
    intro replied
    unfold scanEcho
    split
    · exact ih replied
    split
    · exact ih replied
    split
    · exact fun x hx => hx
    split
    · exact fun x hx => List.mem_insert_of_mem hx
    · exact ih replied

theorem scanEcho_chosen_not_mem (cfg : AgentCfg) (env : Env) :
    ∀ (hist : List EchoMessage) (replied : List String) (i : String),
      (scanEcho cfg env hist replied).chosen = some i → i ∉ replied := by
  intro hist
  induction hist with
  | nil => intro replied i h; cases h
  | cons m ms ih =>
    intro replied i h
    revert h
    unfold scanEcho
    split
    · exact ih replied i
    split
    · exact ih replied i
    split
    · intro h; cases h
    split
    · rename_i hguard _ _
      intro h
      cases h
      intro hmem
      exact hguard (Or.inr hmem)
    · exact ih replied i

theorem scanEcho_no_read (cfg : AgentCfg) (env : Env) :
    ∀ (hist : List EchoMessage) (replied : List String),
      callReadTimeline ∉ (scanEcho cfg env hist replied).calls := by
  intro hist
  induction hist with
  | nil => intro replied h; cases h
  | cons m ms ih =>
    intro replied
    unfold scanEcho
    split
    · exact ih replied
    split
    · exact ih replied
    split
    · intro h; cases h
    split
    · exact (by decide : callReadTimeline ∉ [callGenerateText, callEchoSend])
    · intro h
      rcases List.mem_cons.mp
          (show callReadTimeline ∈ callGenerateText :: (scanEcho cfg env ms replied).calls
            from h) with h | h
      · exact absurd h (by decide)
      · exact ih replied h

theorem branchRun_no_read (cfg : AgentCfg) (env : Env) (a : String) (s1 : LoopState) :
    callReadTimeline ∉ (branchRun cfg env a s1).calls := by
  unfold branchRun
  try dsimp only
  repeat' split
  all_goals try dsimp only [BodyResult.calls]
  all_goals
    first
      | decide
      | (intro hmem
         rcases List.mem_append.mp hmem with hmem | hmem
         · exact absurd hmem (by decide)
         · exact scanEcho_no_read cfg env _ _ hmem)

theorem branchRun_echoReplied_superset (cfg : AgentCfg) (env : Env) (a : String)
    (s1 : LoopState) :
    s1.st.echoReplied ⊆ (branchRun cfg env a s1).state.st.echoReplied := by
  unfold branchRun
  try dsimp only
  repeat' split
  all_goals try dsimp only [BodyResult.state]
  all_goals
    first
      | exact fun x hx => hx
      | exact scanEcho_replied_superset cfg env _ _

theorem bodyRun_echoReplied_superset (cfg : AgentCfg) (env : Env) (s : LoopState) :
    s.st.echoReplied ⊆ (bodyRun cfg env s).state.st.echoReplied := by
  unfold bodyRun
  cases hr : randomChoices cfg.tasks env.rand with
  | error e =>
    simp only [BodyResult.state]
    rw [afterRefill_echoReplied]
    exact fun x hx => hx
  | ok a =>
    rw [prependCalls_state]
    have h1 := branchRun_echoReplied_superset cfg env a.name (afterRefill cfg env s)
    rw [afterRefill_echoReplied] at h1
    exact h1

theorem iterate_echoReplied_superset (cfg : AgentCfg) (env : Env) (s : LoopState) :
    s.st.echoReplied ⊆ (iterate cfg env s).state.st.echoReplied := by
  rw [iterate_state_bodyRun]
  exact bodyRun_echoReplied_superset cfg env s

theorem loopRun_echoReplied_superset (cfg : AgentCfg) :
    ∀ (envs : List Env) (s : LoopState),
      s.st.echoReplied ⊆ ((loopRun cfg s envs).2).st.echoReplied := by
  intro envs
  induction envs with
  | nil => intro s; exact fun x hx => hx
  | cons e es ih =>
    intro s
    cases hs : e.signal with
    | true =>
      rw [loopRun_cons_signal hs]
      exact fun x hx => hx
    | false =>
      rw [loopRun_cons_go hs]
      exact (iterate_echoReplied_superset cfg e s).trans (ih _)

theorem branchRun_post_skip {cfg : AgentCfg} {env : Env} {s1 : LoopState}
    (h : env.now - s1.lastTweetTime < cfg.tweetInterval) :
    branchRun cfg env "post-tweet" s1 = .cont s1 [] := by
  unfold branchRun
  rw [if_pos rfl, if_neg (not_le.mpr h)]

theorem branchRun_post_go {cfg : AgentCfg} {env : Env} {s1 : LoopState}
    (h : cfg.tweetInterval ≤ env.now - s1.lastTweetTime)
    (hl : optTruthy env.llmTweet = true) :
    branchRun cfg env "post-tweet" s1 =
      .done { s1 with lastTweetTime := env.now } [callGenerateText, callPostTweet] true := by
  unfold branchRun
  rw [if_pos rfl, if_pos h, if_pos hl]

theorem branchRun_post_noText {cfg : AgentCfg} {env : Env} {s1 : LoopState}
    (h : cfg.tweetInterval ≤ env.now - s1.lastTweetTime)
    (hl : optTruthy env.llmTweet = false) :
    branchRun cfg env "post-tweet" s1 = .done s1 [callGenerateText] false := by
  unfold branchRun
  rw [if_pos rfl, if_pos h, if_neg (by simp [hl])]

/-! Claim theorems. -/

/-- C1 — Fault isolation of the agent loop: every iteration body runs under
an unconditional iteration-boundary handler (src/agent.py line 337), so the
loop completes one iteration per environment — including environments whose
iteration raises — precisely when no environment delivers the external
cancellation signal (`KeyboardInterrupt`); an iteration's failure never
terminates the loop. -/
theorem loop_fault_isolation (cfg : AgentCfg) (s : LoopState) (envs : List Env) :
    (loopRun cfg s envs).1 = envs.length ↔ ∀ e ∈ envs, e.signal = false :=
  loopRun_fst_eq_length_iff cfg s envs

/-- C8 — All-zero weights is a stall, not a crash: when every configured
task has weight 0 the weighted draw never returns a task (it raises
`ValueError`), the iteration records a caught error with no success and no
provider call beyond a possible replenish, and the loop keeps running for
as long as no cancellation signal arrives. -/
theorem all_zero_weights_stall (cfg : AgentCfg) (env : Env) (s : LoopState)
    (h : ∀ t ∈ cfg.tasks, t.weight = 0) :
    (∀ (r : Nat) (t : Task), randomChoices cfg.tasks r ≠ .ok t) ∧
    (iterate cfg env s).errored = true ∧
    (iterate cfg env s).success = false ∧
    (∀ c ∈ (iterate cfg env s).calls, c = callReadTimeline) ∧
    (∀ (s0 : LoopState) (envs : List Env), (∀ e ∈ envs, e.signal = false) →
      (loopRun cfg s0 envs).1 = envs.length) := by
  have hrc := randomChoices_all_zero h
  refine ⟨?_, ?_, ?_, ?_, ?_⟩
  · intro r t hok
    rw [hrc r] at hok
    exact absurd hok (by simp)
  · simp [iterate, bodyRun, hrc env.rand]
  · simp [iterate, bodyRun, hrc env.rand]
  · intro c hc
    simp only [iterate, bodyRun, hrc env.rand] at hc
    revert hc
    unfold refillCalls
    split <;> simp_all
  · intro s0 envs hsig
    exact (loopRun_fst_eq_length_iff cfg s0 envs).mpr hsig

/-- Witness for C8 at a concrete all-zero-weight configuration: the
iteration errors and a two-environment run still completes both
iterations. -/
theorem all_zero_weights_stall_witness :
    (∀ t ∈ ({ cfgPost with tasks := [⟨"post-tweet", 0⟩] } : AgentCfg).tasks, t.weight = 0) ∧
    (iterate { cfgPost with tasks := [⟨"post-tweet", 0⟩] } envBase statePost).errored = true ∧
    (loopRun { cfgPost with tasks := [⟨"post-tweet", 0⟩] } statePost [envBase, envBase]).1 = 2 := by
  have h := all_zero_weights_stall { cfgPost with tasks := [⟨"post-tweet", 0⟩] }
    envBase statePost (by decide)
  refine ⟨by decide, h.2.1, h.2.2.2.2 statePost [envBase, envBase] ?_⟩
  intro e he
  rcases List.mem_cons.mp he with rfl | he
  · rfl
  · rcases List.mem_cons.mp he with rfl | he
    · rfl
    · simp at he

/-- C2 counterexample — with `post-tweet` selected and the interval elapsed
(100 - 0 ≥ 10), an LLM generation that returns an empty (falsy) string
leads to no post and an unchanged `last_tweet_time`, without any error: the
elapsed half of the claim does not hold unconditionally. -/
theorem post_tweet_cooldown_counterexample :
    cfgPost.tweetInterval ≤ envLLMEmpty.now - statePost.lastTweetTime ∧
    randomChoices cfgPost.tasks envLLMEmpty.rand = .ok ⟨"post-tweet", 1⟩ ∧
    (iterate cfgPost envLLMEmpty statePost).state.lastTweetTime = 0 ∧
    (iterate cfgPost envLLMEmpty statePost).state.lastTweetTime ≠ envLLMEmpty.now ∧
    callPostTweet ∉ (iterate cfgPost envLLMEmpty statePost).calls ∧
    (iterate cfgPost envLLMEmpty statePost).errored = false :=
  ⟨by decide, rfl, by decide, by decide, by decide, by decide⟩

/-- C2 (amended) — cooldown enforcement for `post-tweet`: when it is
selected and `now - last_tweet_time < tweet_interval`, the iteration is
skipped via `continue` without failure, no post call is made and
`last_tweet_time` is unchanged; when the interval has elapsed, the LLM
generation runs and, provided it returns non-empty text, the tweet is
posted and `last_tweet_time` is updated to the new `now` — with empty LLM
output nothing is posted and `last_tweet_time` is unchanged. -/
theorem post_tweet_cooldown_amended (cfg : AgentCfg) (env : Env) (s : LoopState) (t : Task)
    (hsel : randomChoices cfg.tasks env.rand = .ok t)
    (hname : t.name = "post-tweet") :
    (env.now - s.lastTweetTime < cfg.tweetInterval →
      (iterate cfg env s).skipped = true ∧
      (iterate cfg env s).errored = false ∧
      (iterate cfg env s).sleep = none ∧
      (iterate cfg env s).state.lastTweetTime = s.lastTweetTime ∧
      callPostTweet ∉ (iterate cfg env s).calls) ∧
    (cfg.tweetInterval ≤ env.now - s.lastTweetTime → optTruthy env.llmTweet = true →
      (iterate cfg env s).success = true ∧
      (iterate cfg env s).state.lastTweetTime = env.now ∧
      callPostTweet ∈ (iterate cfg env s).calls) ∧
    (cfg.tweetInterval ≤ env.now - s.lastTweetTime → optTruthy env.llmTweet = false →
      (iterate cfg env s).success = false ∧
      (iterate cfg env s).errored = false ∧
      (iterate cfg env s).state.lastTweetTime = s.lastTweetTime ∧
      callPostTweet ∉ (iterate cfg env s).calls) := by
  have hb := bodyRun_sel s hsel
  rw [hname] at hb
  refine ⟨?_, ?_, ?_⟩
  · intro hlt
    have hlt2 : env.now - (afterRefill cfg env s).lastTweetTime < cfg.tweetInterval := by
      rw [afterRefill_lastTweetTime]
      exact hlt
    rw [branchRun_post_skip hlt2] at hb
    have hiter : iterate cfg env s =
        ⟨afterRefill cfg env s, refillCalls cfg s ++ [], none, false, true, false⟩ := by
      unfold iterate
      rw [hb]
      rfl
    rw [hiter]
    refine ⟨rfl, rfl, rfl, afterRefill_lastTweetTime cfg env s, ?_⟩
    intro hmem
    rcases List.mem_append.mp hmem with hmem | hmem
    · exact absurd (mem_refillCalls hmem) (by decide)
    · cases hmem
  · intro hge hllm
    have hge2 : cfg.tweetInterval ≤ env.now - (afterRefill cfg env s).lastTweetTime := by
      rw [afterRefill_lastTweetTime]
      exact hge
    rw [branchRun_post_go hge2 hllm] at hb
    have hiter : iterate cfg env s =
        ⟨{ afterRefill cfg env s with lastTweetTime := env.now },
         refillCalls cfg s ++ [callGenerateText, callPostTweet],
         some cfg.loopDelay, false, false, true⟩ := by
      unfold iterate
      rw [hb]
      rfl
    rw [hiter]
    exact ⟨rfl, rfl, List.mem_append_right _ (by decide)⟩
  · intro hge hllm
    have hge2 : cfg.tweetInterval ≤ env.now - (afterRefill cfg env s).lastTweetTime := by
      rw [afterRefill_lastTweetTime]
      exact hge
    rw [branchRun_post_noText hge2 hllm] at hb
    have hiter : iterate cfg env s =
        ⟨afterRefill cfg env s, refillCalls cfg s ++ [callGenerateText],
         some 60, false, false, false⟩ := by
      unfold iterate
      rw [hb]
      rfl
    rw [hiter]
    refine ⟨rfl, rfl, afterRefill_lastTweetTime cfg env s, ?_⟩
    intro hmem
    rcases List.mem_append.mp hmem with hmem | hmem
    · exact absurd (mem_refillCalls hmem) (by decide)
    · exact absurd hmem (by decide)

/-- Witness for C2 (amended): elapsed interval and non-empty LLM text post
the tweet and update `last_tweet_time` to the new now. -/
theorem post_tweet_cooldown_amended_witness :
    (iterate cfgPost envLLMText statePost).success = true ∧
    (iterate cfgPost envLLMText statePost).state.lastTweetTime = 100 ∧
    callPostTweet ∈ (iterate cfgPost envLLMText statePost).calls := by
  have h := post_tweet_cooldown_amended cfgPost envLLMText statePost ⟨"post-tweet", 1⟩
    rfl rfl
  have h2 := h.2.1 (by decide) (by decide)
  exact ⟨h2.1, h2.2.1, h2.2.2⟩

/-- C3 counterexample — an iteration whose `post-tweet` task is still inside
its cooldown ends via `continue` with no sleep at all, refuting "every loop
iteration ends with a sleep" (and hence the claimed fallback sleep after a
cooldown skip). -/
theorem sleep_policy_counterexample :
    randomChoices cfgPost.tasks envEarly.rand = .ok ⟨"post-tweet", 1⟩ ∧
    envEarly.now - statePost.lastTweetTime < cfgPost.tweetInterval ∧
    (iterate cfgPost envEarly statePost).errored = false ∧
    (iterate cfgPost envEarly statePost).success = false ∧
    (iterate cfgPost envEarly statePost).sleep = none :=
  ⟨rfl, by decide, by decide, by decide, by decide⟩

/-- C3 (amended) — the actual sleep policy: an iteration that raises sleeps
`loop_delay` (not a longer fallback); an iteration skipped via `continue`
(e.g. the `post-tweet` cooldown) performs no sleep; an iteration that falls
through sleeps `loop_delay` when it performed a successful action and a
fixed 60 seconds otherwise (the 60-second fallback is a constant, not
guaranteed larger than `loop_delay`). -/
theorem sleep_policy_amended (cfg : AgentCfg) (env : Env) (s : LoopState) :
    (iterate cfg env s).sleep =
      (if (iterate cfg env s).errored = true then some cfg.loopDelay
       else if (iterate cfg env s).skipped = true then none
       else if (iterate cfg env s).success = true then some cfg.loopDelay
       else some 60) := by
  unfold iterate
  cases bodyRun cfg env s with
  | done s2 calls succ => cases succ <;> rfl
  | cont s2 calls => rfl
  | err s2 calls e => rfl

/-- C6 — failing input: with tasks = [like-tweet] (a task whose branch
consumes the timeline cache by popping it) and an absent timeline key, the
iteration makes no `read-timeline` call and performs no action: the
replenish guard tests `startswith("tweet")`, which no timeline-consuming
task name satisfies, so the cache is never refilled for them. -/
theorem replenish_dependency_counterexample :
    cfgLike.tasks.any specTaskDependsOnTimeline = true ∧
    timelineNeedsRefill stateEmpty.st.timelineTweets = true ∧
    randomChoices cfgLike.tasks envBase.rand = .ok ⟨"like-tweet", 1⟩ ∧
    (iterate cfgLike envBase stateEmpty).calls.count callReadTimeline = 0 ∧
    (iterate cfgLike envBase stateEmpty).success = false :=
  ⟨by decide, by decide, rfl, by decide, by decide⟩

/-- C6 (amended) — the timeline cache is refilled (exactly one
`read-timeline` call) precisely when it is absent, None, or empty AND at
least one configured task's name starts with "tweet"; in particular a
non-empty cache is never refilled, and the consuming tasks
(`reply-to-tweet`, `like-tweet`) do not themselves trigger a refill. -/
theorem replenish_guard_amended (cfg : AgentCfg) (env : Env) (s : LoopState) :
    (iterate cfg env s).calls.count callReadTimeline =
      if timelineNeedsRefill s.st.timelineTweets && tasksDependOnTimeline cfg.tasks
      then 1 else 0 := by
  rw [iterate_calls_bodyRun]
  unfold bodyRun
  cases hr : randomChoices cfg.tasks env.rand with
  | error e =>
    dsimp only [BodyResult.calls]
    rw [refillCalls_count cfg s]
    simp only [refillFlag]
  | ok a =>
    rw [prependCalls_calls, List.count_append]
    rw [List.count_eq_zero.mpr (branchRun_no_read cfg env a.name (afterRefill cfg env s))]
    rw [refillCalls_count cfg s]
    simp only [refillFlag, Nat.add_zero]

/-- C7 — a failed replenish (the `read-timeline` dispatch returning `None`)
does not abort the iteration: the cache is set to `None` ("nothing to do
this round") and the iteration proceeds through selection and execution —
here the selected `post-tweet` still runs to a successful post. -/
theorem failed_replenish_proceeds (cfg : AgentCfg) (env : Env) (s : LoopState) (t : Task)
    (hempty : timelineNeedsRefill s.st.timelineTweets = true)
    (hdep : tasksDependOnTimeline cfg.tasks = true)
    (hfail : env.readTimeline = none)
    (hsel : randomChoices cfg.tasks env.rand = .ok t)
    (hname : t.name = "post-tweet")
    (helapsed : cfg.tweetInterval ≤ env.now - s.lastTweetTime)
    (hllm : optTruthy env.llmTweet = true) :
    (iterate cfg env s).errored = false ∧
    (iterate cfg env s).success = true ∧
    (iterate cfg env s).state.st.timelineTweets = some none ∧
    callReadTimeline ∈ (iterate cfg env s).calls ∧
    callPostTweet ∈ (iterate cfg env s).calls := by
  have hflag : refillFlag cfg s = true := by
    unfold refillFlag
    rw [hempty, hdep]
    rfl
  have hb := bodyRun_sel s hsel
  rw [hname] at hb
  have hge2 : cfg.tweetInterval ≤ env.now - (afterRefill cfg env s).lastTweetTime := by
    rw [afterRefill_lastTweetTime]
    exact helapsed
  rw [branchRun_post_go hge2 hllm] at hb
  have hrc : refillCalls cfg s = [callReadTimeline] := by
    unfold refillCalls
    rw [if_pos hflag]
  have hiter : iterate cfg env s =
      ⟨{ afterRefill cfg env s with lastTweetTime := env.now },
       refillCalls cfg s ++ [callGenerateText, callPostTweet],
       some cfg.loopDelay, false, false, true⟩ := by
    unfold iterate
    rw [hb]
    rfl
  rw [hiter]
  refine ⟨rfl, rfl, ?_, ?_, ?_⟩
  · show (afterRefill cfg env s).st.timelineTweets = some none
    rw [afterRefill_of_flag env hflag]
    show some env.readTimeline = some none
    rw [hfail]
  · rw [hrc]
    exact List.mem_append_left _ (by decide)
  · exact List.mem_append_right _ (by decide)

/-- Witness for C7: a configuration whose replenish guard fires, a failed
timeline read, and a `post-tweet` selection that still executes. -/
theorem failed_replenish_proceeds_witness :
    (iterate cfgDep envLLMText stateEmpty).errored = false ∧
    (iterate cfgDep envLLMText stateEmpty).success = true ∧
    (iterate cfgDep envLLMText stateEmpty).state.st.timelineTweets = some none ∧
    callReadTimeline ∈ (iterate cfgDep envLLMText stateEmpty).calls := by
  have h := failed_replenish_proceeds cfgDep envLLMText stateEmpty ⟨"post-tweet", 1⟩
    (by decide) (by decide) rfl rfl rfl (by decide) (by decide)
  exact ⟨h.1, h.2.1, h.2.2.1, h.2.2.2.1⟩

/-- C9 — dedup-set monotonicity: the `echochambers_replied_messages` set
only ever grows, across one iteration and across any whole run, and the
message scan never chooses (replies to) an identifier already in the set. -/
theorem dedup_set_monotone (cfg : AgentCfg) (env : Env) (s : LoopState) :
    s.st.echoReplied ⊆ (iterate cfg env s).state.st.echoReplied ∧
    (∀ envs : List Env, s.st.echoReplied ⊆ ((loopRun cfg s envs).2).st.echoReplied) ∧
    (∀ (hist : List EchoMessage) (replied : List String),
      replied ⊆ (scanEcho cfg env hist replied).replied) ∧
    (∀ (hist : List EchoMessage) (replied : List String) (i : String),
      i ∈ replied → (scanEcho cfg env hist replied).chosen ≠ some i) := by
  refine ⟨iterate_echoReplied_superset cfg env s,
    fun envs => loopRun_echoReplied_superset cfg envs s,
    scanEcho_replied_superset cfg env, ?_⟩
  intro hist replied i hmem hch
  exact scanEcho_chosen_not_mem cfg env hist replied i hch hmem

/-- Witness for C9: an already-handled id in a re-fetched history is never
chosen again. -/
theorem dedup_set_monotone_witness :
    "m1" ∈ ["m1"] ∧
    (scanEcho cfgPost envEcho [⟨"m1", "alice", "hi"⟩] ["m1"]).chosen ≠ some "m1" :=
  ⟨by decide, (dedup_set_monotone cfgPost envEcho statePost).2.2.2
    [⟨"m1", "alice", "hi"⟩] ["m1"] "m1" (by decide)⟩

/-- C10 — `ConnectionManager.find_and_perform_action` never propagates an
exception: whenever its `try` body raises (unknown connection, unknown
action, invalid argument, or any exception from the underlying connection),
the `except` handlers catch it and the function returns `None`; when the
body succeeds, its value is returned unchanged. -/
theorem dispatch_never_raises (m : Dispatcher.ConnectionManager)
    (a c : String) (il : Option (List String)) (kwargs : List (String × PyVal)) :
    (∀ e : PyErr, Dispatcher.fapBody m a c il kwargs = .error e →
      Dispatcher.find_and_perform_action m a c il kwargs = none) ∧
    (∀ v : Option PyVal, Dispatcher.fapBody m a c il kwargs = .ok v →
      Dispatcher.find_and_perform_action m a c il kwargs = v) := by
  constructor
  · intro e he
    unfold Dispatcher.find_and_perform_action
    rw [he]
    cases e <;> rfl
  · intro v hv
    unfold Dispatcher.find_and_perform_action
    rw [hv]

/-- Witness for C10: a provider call that raises is caught and the dispatch
returns `None`. -/
theorem dispatch_never_raises_witness :
    Dispatcher.fapBody mgrBoom "post-tweet" "twitter" none [] =
      .error (.other "network down") ∧
    Dispatcher.find_and_perform_action mgrBoom "post-tweet" "twitter" none [] = none := by
  refine ⟨rfl, ?_⟩
  exact (dispatch_never_raises mgrBoom "post-tweet" "twitter" none []).1
    (.other "network down") rfl

/-- C4 counterexample — the dispatch entry point does not fail fast on an
unconfigured connection: `find_and_perform_action` invokes the action of a
connection whose `is_configured` is false and returns its result. -/
theorem dispatch_no_configured_check_counterexample :
    connUnconfigured.isConfigured = false ∧
    Dispatcher.find_and_perform_action mgrUnconfigured "post-tweet" "twitter"
      (some ["agent-action", "twitter", "post-tweet", "hello", "world"]) [] =
      some (.vStr "posted") :=
  ⟨rfl, rfl⟩

/-- C4 (amended) — dispatch chain of `find_and_perform_action`: resolve the
connection (unknown name short-circuits to `None`), resolve the action
(unknown action short-circuits to `None`), validate CLI-supplied arguments
per action (a non-numeric count short-circuits to `None` without invoking),
and only then invoke `connection.perform_action`, returning its value or
`None` when it raises; no configured check is performed. -/
theorem dispatch_chain_amended (m : Dispatcher.ConnectionManager)
    (a c : String) (il : Option (List String)) (kwargs : List (String × PyVal))
    (conn : Dispatcher.Connection) (l : List String) :
    (Dispatcher.lookupConn m c = none →
      Dispatcher.find_and_perform_action m a c il kwargs = none) ∧
    (Dispatcher.lookupConn m c = some conn → a ∉ conn.actions →
      Dispatcher.find_and_perform_action m a c il kwargs = none) ∧
    (Dispatcher.lookupConn m c = some conn → a ∈ conn.actions →
      Dispatcher.find_and_perform_action m a c none kwargs =
        match conn.perform a kwargs with
        | .ok v => v
        | .error _ => none) ∧
    (Dispatcher.lookupConn m c = some conn → a ∈ conn.actions →
      a = "get-latest-tweets" → 2 ≤ (l.drop 3).length →
      Dispatcher.parseIntPy ((l.drop 3).getD 1 "") = none →
      Dispatcher.find_and_perform_action m a c (some l) kwargs = none) := by
  refine ⟨?_, ?_, ?_, ?_⟩
  · intro hc
    unfold Dispatcher.find_and_perform_action Dispatcher.fapBody
    rw [hc]
  · intro hc ha
    unfold Dispatcher.find_and_perform_action Dispatcher.fapBody
    rw [hc]
    simp only [ha, if_neg, ite_false]
  · intro hc ha
    unfold Dispatcher.find_and_perform_action Dispatcher.fapBody
    rw [hc]
    simp only [ha, if_pos, ite_true]
    cases hp : conn.perform a kwargs with
    | ok v => rfl
    | error e => cases e <;> rfl
  · intro hc ha hgl hlen hint
    subst hgl
    unfold Dispatcher.find_and_perform_action Dispatcher.fapBody
    rw [hc]
    simp only [ha, if_pos, ite_true]
    have h0 : 0 < (l.drop 3).length := by omega
    simp only [h0, if_pos, ite_true, if_true]
    simp only [if_pos rfl, hlen, ite_true]
    rw [hint]

/-- Witness for C4 (amended) at concrete inputs: unknown connection, unknown
action, bad count argument, and a successful invocation. -/
theorem dispatch_chain_amended_witness :
    Dispatcher.find_and_perform_action mgrUnconfigured "post-tweet" "nosuch" none [] = none ∧
    Dispatcher.find_and_perform_action mgrUnconfigured "zap" "twitter" none [] = none ∧
    Dispatcher.find_and_perform_action mgrUnconfigured "post-tweet" "twitter" none [] =
      some (.vStr "posted") := by
  have h1 := dispatch_chain_amended mgrUnconfigured "post-tweet" "nosuch" none []
    connUnconfigured []
  have h2 := dispatch_chain_amended mgrUnconfigured "zap" "twitter" none []
    connUnconfigured []
  have h3 := dispatch_chain_amended mgrUnconfigured "post-tweet" "twitter" none []
    connUnconfigured []
  refine ⟨h1.1 rfl, h2.2.1 rfl (by decide), ?_⟩
  have := h3.2.2.1 rfl (by decide)
  rw [this]
  rfl

/-- C5 — Validation completeness: for every required parameter absent from
the argument map, `validate_params` returns a "missing parameter" error
naming it; when every required parameter is supplied with a conforming
value (and no supplied value mismatches its type) it returns the empty
list; and a non-empty error list makes `SonicConnection.perform_action`
fail with `ValueError` before the bound method is invoked, for every
possible method behaviour. -/
theorem validation_completeness (ps : List Sonic.ActionParameter)
    (args : List (String × PyVal)) (kwargs : List (String × PyVal)) :
    (∀ p ∈ ps, p.required = true → Sonic.lookupArg args p.name = none →
      Sonic.ValError.missing p.name ∈ Sonic.validate_params ps args) ∧
    ((∀ p ∈ ps, match Sonic.lookupArg args p.name with
        | none => p.required = false
        | some v => Sonic.matchesType v p.ty = true) →
      Sonic.validate_params ps args = []) ∧
    (∀ (sc : Sonic.SonicConnection) (an : String),
      Sonic.lookupAction sc an = some ps → sc.configured = true →
      Sonic.validate_params ps kwargs ≠ [] →
      Sonic.sonic_perform_action sc an kwargs =
        .error (.valueError "Invalid parameters")) := by
  refine ⟨?_, ?_, ?_⟩
  · intro p hp hreq habs
    induction ps with
    | nil => cases hp
    | cons q ps ih =>
      unfold Sonic.validate_params
      rw [List.foldr_cons]
      rcases List.mem_cons.mp hp with rfl | hp
      · rw [habs, hreq]
        simp
      · have htail := ih hp
        unfold Sonic.validate_params at htail
        cases hq : Sonic.lookupArg args q.name with
        | none =>
          by_cases hr : q.required <;> simp [hr, htail]
        | some v =>
          by_cases hm : Sonic.matchesType v q.ty <;> simp [hm, htail]
  · intro hall
    induction ps with
    | nil => rfl
    | cons q ps ih =>
      unfold Sonic.validate_params
      rw [List.foldr_cons]
      have hq := hall q (List.mem_cons_self q ps)
      have htail := ih (fun p hp => hall p (List.mem_cons_of_mem q hp))
      unfold Sonic.validate_params at htail
      revert hq
      cases hlook : Sonic.lookupArg args q.name with
      | none => intro hq; simp [hq, htail]
      | some v => intro hq; simp [hq, htail]
  · intro sc an hlook hconf herr
    unfold Sonic.sonic_perform_action
    rw [hlook, hconf]
    simp [herr]

/-- Witness for C5: with only one of two required parameters supplied,
validation reports the missing one and the Sonic dispatch fails with
`ValueError`. -/
theorem validation_completeness_witness :
    Sonic.ValError.missing "amount" ∈ Sonic.validate_params psTransfer argsPartial ∧
    Sonic.sonic_perform_action scTransfer "transfer" argsPartial =
      .error (.valueError "Invalid parameters") := by
  have h := validation_completeness psTransfer argsPartial argsPartial
  exact ⟨h.1 ⟨"amount", true, .tInt⟩ (by decide) rfl rfl,
    h.2.2 scTransfer "transfer" rfl rfl (by decide)⟩

end DeWill
